import Mathlib

/-!
# Verification of the go-mapbox-sdk geocoding client

Shallow embedding of the request-building / response-parsing pipeline of the
mapbox geocoding client.  A Go `float64` is modelled as the exact rational
number it denotes, represented as an explicit numerator/denominator pair
(`GoFloat`); Go maps of query parameters are modelled as association lists in
program order, with Go map-assignment semantics (insertion overwrites an
existing key); the injected HTTP transport and the injected JSON serializer
are modelled as explicit arguments describing their outcome for the call.
-/

namespace Mapbox

/-! ## Floats and numeric formatting

Models `strconv.FormatFloat(x, 'f', 6, 64)` (and `fmt.Sprintf("%f", x)`,
which uses the same fixed 6-digit rendering): the exact value of the float
is correctly rounded to 6 decimal digits, ties to even, and rendered in
non-exponential notation with a sign taken from the value. -/

/-- The exact rational value of a Go `float64`, as numerator/denominator
(every binary64 value is such a fraction). -/
structure GoFloat where
  num : ℤ
  den : ℕ
  deriving DecidableEq, Repr

/-- The value scaled by `10^6` and rounded to the nearest integer, ties to
even: the rounding step of `strconv.FormatFloat(x, 'f', 6, 64)`. -/
def round6 (x : GoFloat) : ℤ :=
  let t : ℤ := x.num * 1000000
  let n : ℤ := Int.ediv t x.den
  let r : ℤ := Int.emod t x.den
  if (x.den : ℤ) < 2 * r then n + 1
  else if 2 * r < (x.den : ℤ) then n
  else if n % 2 = 0 then n else n + 1

/-- The six fractional digits of a scaled value `m < 10^6`, most significant
first, exactly six characters. -/
def frac6 (m : ℕ) : String :=
  String.mk [Nat.digitChar (m / 100000 % 10), Nat.digitChar (m / 10000 % 10),
             Nat.digitChar (m / 1000 % 10), Nat.digitChar (m / 100 % 10),
             Nat.digitChar (m / 10 % 10), Nat.digitChar (m % 10)]

/-- Model of `strconv.FormatFloat(x, 'f', 6, 64)`: fixed-point decimal
rendering with exactly 6 digits after the decimal point. -/
def formatF6 (x : GoFloat) : String :=
  let r : ℕ := (round6 x).natAbs
  (if x.num < 0 then "-" else "") ++ toString (r / 1000000) ++ "." ++ frac6 (r % 1000000)

/-- Model of Go `fmt.Sprint` on a `bool`. -/
def fmtBool (b : Bool) : String := if b then "true" else "false"

/-- `fmt.Sprint(*p)` when a tri-state `*bool` field is set, `"true"` when it
is nil: the value written for `autocomplete` / `fuzzymatch`. -/
def optBoolStr : Option Bool → String
  | some b => fmtBool b
  | none => "true"

/-! ## Domain types (`geocode.go`) -/

/-- `GeoPoint`: a longitude/latitude pair. -/
structure GeoPoint where
  Lon : GoFloat
  Lat : GoFloat
  deriving DecidableEq, Repr

/-- `Context` (`entities.go`): one nested context entry of a geocoding
result. -/
structure Context where
  ID : String
  Text : String
  Wikidata : String
  ShortCode : String
  deriving DecidableEq, Repr

/-- `Properties` (`entities.go`): the properties of a geocoding result. -/
structure Properties where
  Accuracy : String
  ShortCode : String
  deriving DecidableEq, Repr

/-- `Geometry` (`entities.go`): the geometry of a geocoding result.  The Go
field `Type` is named `Type'` here because `Type` is a Lean keyword. -/
structure Geometry where
  Type' : String
  Coordinates : List GoFloat
  deriving DecidableEq, Repr

/-- `Feature` (`entities.go`): a single place record returned by the API.
The claims treat features as opaque parsed data.  The Go field `Type` is
named `Type'` here because `Type` is a Lean keyword. -/
structure Feature where
  ID : String
  Type' : String
  PlaceType : List String
  Relevance : ℤ
  Properties : Properties
  Text : String
  PlaceName : String
  Center : List GoFloat
  Geometry : Geometry
  Address : String
  Context : List Context
  deriving DecidableEq, Repr

/-- `ReverseGeocodeRequest`: a point plus optional filters. -/
structure ReverseGeocodeRequest where
  GeoPoint : GeoPoint
  Limit : ℤ
  Types : List String
  Country : String
  Language : String
  ReverseMode : ℤ
  Routing : Bool
  deriving DecidableEq, Repr

/-- `ForwardGeocodeRequest`: free-text search plus optional filters.
`Autocomplete` and `FuzzyMatch` are tri-state `*bool` fields. -/
structure ForwardGeocodeRequest where
  SearchText : String
  Autocomplete : Option Bool
  Bbox : List GoFloat
  Country : String
  FuzzyMatch : Option Bool
  Language : String
  Limit : ℤ
  Proximity : Option GeoPoint
  Routing : Bool
  Types : List String
  deriving DecidableEq, Repr

/-- `RateLimit` wraps the mapbox API rate limit response headers. -/
structure RateLimit where
  Interval : String
  Limit : String
  Reset : String
  deriving DecidableEq, Repr

/-- The raw JSON shape of a reverse geocoding response body. -/
structure rawReverseGeoResp where
  Features : List Feature
  Query : List GoFloat
  deriving DecidableEq, Repr

/-- The raw JSON shape of a forward geocoding response body. -/
structure rawForwardGeoResp where
  Features : List Feature
  Query : List String
  deriving DecidableEq, Repr

/-- `GeocodeResponse`: the unified response of both operations.  The Go
field `Type` is named `Type'` here because `Type` is a Lean keyword. -/
structure GeocodeResponse where
  RateLimit : RateLimit
  RawResp : String
  ReverseQuery : GeoPoint
  ForwardQuery : List String
  Type' : String
  Features : List Feature
  deriving DecidableEq, Repr

/-- The observable outcome of `fasthttp.Client.Do` when the transport
succeeds: status code, body bytes, and the three rate-limit headers the
client peeks (a missing header is the empty string). -/
structure HttpResp where
  statusCode : ℤ
  body : String
  rlInterval : String
  rlLimit : String
  rlReset : String
  deriving DecidableEq, Repr

/-- `readRespRateLimit`: extract the rate-limit headers. -/
def readRespRateLimit (resp : HttpResp) : RateLimit :=
  { Interval := resp.rlInterval, Limit := resp.rlLimit, Reset := resp.rlReset }

/-! ## Logger and configuration (`logger.go`, `config.go`) -/

/-- Opaque handle for a request-scoped `context.Context`. -/
abbrev Ctx : Type := ℕ

/-- Opaque handle for an injected `Logger` capability. -/
structure Logger where
  id : ℕ
  deriving DecidableEq, Repr

/-- The client configuration record. `client` is an opaque handle for the
injected `FastHttpClient`. -/
structure config where
  accessToken : String
  rootAPI : String
  client : ℕ
  logger : Option Logger
  requestLogger : Option (Ctx → Logger)
  accessTokenGetValue : String
  geocodeEndpoint : String

/-- `config.withLogger`: the logger the debug callback is invoked with
(`none` means the log call is skipped).  The request-logger resolver, when
set, is used instead of the static logger. -/
def withLogger (c : config) (ctx : Ctx) : Option Logger :=
  match c.requestLogger with
  | some f => some (f ctx)
  | none =>
    match c.logger with
    | some l => some l
    | none => none

/-- `config.withEnv`: overwrite the access token when the
`MAPBOX_ACCESS_TOKEN` environment value (passed explicitly here) is
non-empty. -/
def withEnv (env : String) (c : config) : config :=
  if env ≠ "" then { c with accessToken := env } else c

/-- `config.prepare`: prebuild the access-token query fragment. -/
def prepare (c : config) : config :=
  { c with accessTokenGetValue := "?" ++ "access_token" ++ "=" ++ c.accessToken }

/-- `newConfig`: the default configuration. -/
def newConfig : config :=
  { accessToken := ""
    rootAPI := "https://api.mapbox.com"
    client := 0
    logger := none
    requestLogger := none
    accessTokenGetValue := ""
    geocodeEndpoint := "mapbox.places" }

/-- The recognized functional options (`Option` in `config.go`). -/
inductive GoOption where
  | Log (l : Logger)
  | RequestLogger (f : Ctx → Logger)
  | AccessToken (tok : String)
  | RootAPI (root : String)
  | HttpClient (cl : ℕ)
  | GeocodeEndpoint (endpoint : String)

/-- Application of one functional option to a configuration, mirroring the
closure returned by each option constructor. -/
def applyOption (c : config) : GoOption → config
  | .Log l => { c with logger := some l }
  | .RequestLogger f => { c with requestLogger := some f }
  | .AccessToken tok => { c with accessToken := tok }
  | .RootAPI root => { c with rootAPI := root }
  | .HttpClient cl => { c with client := cl }
  | .GeocodeEndpoint endpoint => { c with geocodeEndpoint := endpoint }

/-- `FastHttpGeocoder`: the constructed client with its precomputed geocode
base URL. -/
structure FastHttpGeocoder where
  config : config
  geocodeAPIURL : String

/-- `NewFastHttpGeocoder`: apply the options in order to the default
configuration, overwrite the token from the environment, prepare the
access-token fragment, and precompute the geocode base URL. -/
def NewFastHttpGeocoder (env : String) (opts : List GoOption) : FastHttpGeocoder :=
  let c0 := newConfig
  let c1 := opts.foldl applyOption c0
  let c2 := prepare (withEnv env c1)
  { config := c2
    geocodeAPIURL := c2.rootAPI ++ "/geocoding/v5/" ++ c2.geocodeEndpoint ++ "/" }

/-! ## Buffer pool (`strings_buffer_pool.go`)

The pool is modelled as the list of builder contents it currently holds;
`sync.Pool.New` hands out a fresh empty builder when the pool is empty. -/

/-- `b.Reset()`: clear the builder's content. -/
def resetBuilder (_ : String) : String := ""

/-- `acquireStringsBuilder`: take a pooled builder, or a fresh empty one. -/
def acquireStringsBuilder (p : List String) : String × List String :=
  match p with
  | [] => ("", [])
  | b :: rest => (b, rest)

/-- `releaseStringsBuilder`: `b.Reset()` then `pool.Put(b)`. -/
def releaseStringsBuilder (p : List String) (b : String) : List String :=
  resetBuilder b :: p

/-! ## Query-value maps and encoding

A Go `map[string]string` of query parameters is modelled as an association
list in insertion order; Go map assignment overwrites the entry of an
existing key. -/

/-- Whether a key is present in the association list. -/
def hasKey (l : List (String × String)) (k : String) : Bool :=
  l.any (fun kv => kv.1 == k)

/-- Go map assignment `m[k] = v`: overwrite the entry of `k` if present,
otherwise add one. -/
def upsert : List (String × String) → String → String → List (String × String)
  | [], k, v => [(k, v)]
  | kv :: rest, k, v => if kv.1 == k then (k, v) :: rest else kv :: upsert rest k v

/-- `encodeValues` (single-map form used by the unified geocoder): append
`&key=value` for every entry. -/
def encodeValues : List (String × String) → String
  | [] => ""
  | kv :: rest => "&" ++ kv.1 ++ "=" ++ kv.2 ++ encodeValues rest

/-! ## Filter construction -/

/-- The five shared filters of a reverse request, in program order: a field
is written only when it differs from its zero value. -/
def buildFilterValues (req : ReverseGeocodeRequest) : List (String × String) :=
  let v : List (String × String) := []
  let v := if req.Country ≠ "" then upsert v "country" req.Country else v
  let v := if req.Limit ≠ 0 then upsert v "limit" (toString req.Limit) else v
  let v := if req.Language ≠ "" then upsert v "language" req.Language else v
  let v := if req.Routing then upsert v "routing" "true" else v
  let v := if req.ReverseMode = 1 then upsert v "reverseMode" "1" else v
  v

/-- The filter map of the unified `ReverseGeocode`: the shared filters plus
the comma-joined `types`. -/
def buildReverseValues (req : ReverseGeocodeRequest) : List (String × String) :=
  let v := buildFilterValues req
  if 0 < req.Types.length then upsert v "types" (String.intercalate "," req.Types) else v

/-- The filter map of `ForwardGeocode`, in program order.  `routing` is
first written conditionally and later unconditionally overwritten with
`fmt.Sprint(req.Routing)`; `autocomplete` and `fuzzymatch` are always
written (defaulting to `"true"` for a nil pointer). -/
def buildForwardValues (req : ForwardGeocodeRequest) : List (String × String) :=
  let v : List (String × String) := []
  let v := if req.Country ≠ "" then upsert v "country" req.Country else v
  let v := if req.Limit ≠ 0 then upsert v "limit" (toString req.Limit) else v
  let v := if req.Language ≠ "" then upsert v "language" req.Language else v
  let v := if req.Routing then upsert v "routing" "true" else v
  let v := upsert v "autocomplete" (optBoolStr req.Autocomplete)
  let v := upsert v "fuzzymatch" (optBoolStr req.FuzzyMatch)
  let v := if req.Bbox.length = 4 then
      upsert v "bbox" (formatF6 (req.Bbox.getD 0 ⟨0, 1⟩) ++ "," ++ formatF6 (req.Bbox.getD 1 ⟨0, 1⟩)
        ++ "," ++ formatF6 (req.Bbox.getD 2 ⟨0, 1⟩) ++ "," ++ formatF6 (req.Bbox.getD 3 ⟨0, 1⟩))
    else v
  let v := match req.Proximity with
    | some gp => upsert v "proximity" (formatF6 gp.Lon ++ "," ++ formatF6 gp.Lat)
    | none => v
  let v := upsert v "routing" (fmtBool req.Routing)
  let v := if 0 < req.Types.length then upsert v "types" (String.intercalate "," req.Types) else v
  v

/-! ## The geocode calls

The injected transport is modelled by its outcome for this call
(`Except.error` = transport failure, `Except.ok` = the delivered response);
the injected JSON serializer is modelled by an explicit unmarshal function.
The two `defer`s on the fasthttp request/response objects have no observable
effect in this model; the deferred buffer release executes on every return
path, so each return constructs its result through `releaseStringsBuilder`. -/

/-- One buffer-pool interaction of a call. -/
inductive PoolEvent where
  | acquire
  | release
  deriving DecidableEq, Repr

/-- The observable outcome of a geocode call: the two Go return values, the
request URI it built, the final pool state, and the pool interactions. -/
structure CallResult where
  resp : Option GeocodeResponse
  err : Option String
  reqURI : String
  pool : List String
  events : List PoolEvent
  deriving Repr

/-- `FastHttpGeocoder.ReverseGeocode` (unified version): build the URI in a
pooled buffer, issue the GET, validate the status, parse the body, validate
the echoed query length, and assemble the response. -/
def ReverseGeocode (c : FastHttpGeocoder) (pool : List String)
    (req : ReverseGeocodeRequest) (transport : Except String HttpResp)
    (unmarshalReverse : String → Except String rawReverseGeoResp) : CallResult :=
  let acq := acquireStringsBuilder pool
  let buf := acq.1 ++ c.geocodeAPIURL
    ++ formatF6 req.GeoPoint.Lon ++ "," ++ formatF6 req.GeoPoint.Lat
    ++ ".json" ++ c.config.accessTokenGetValue
    ++ encodeValues (buildReverseValues req)
  let reqURI := buf
  match transport with
  | .error e =>
    { resp := none, err := some e, reqURI := reqURI
      pool := releaseStringsBuilder acq.2 buf, events := [.acquire, .release] }
  | .ok fresp =>
    let respBytes := fresp.body
    if fresp.statusCode ≠ 200 then
      { resp := none
        err := some ("failed to reverse geocode URI " ++ reqURI ++ " statusCode "
          ++ toString fresp.statusCode ++ " resp " ++ respBytes)
        reqURI := reqURI
        pool := releaseStringsBuilder acq.2 buf, events := [.acquire, .release] }
    else
      match unmarshalReverse respBytes with
      | .error perr =>
        { resp := none
          err := some ("failed to unmarshall raw reverse geocode resp " ++ respBytes ++ ": " ++ perr)
          reqURI := reqURI
          pool := releaseStringsBuilder acq.2 buf, events := [.acquire, .release] }
      | .ok respRaw =>
        if respRaw.Query.length ≠ 2 then
          { resp := none
            err := some ("unexpected len of query coordinates in resp " ++ respBytes)
            reqURI := reqURI
            pool := releaseStringsBuilder acq.2 buf, events := [.acquire, .release] }
        else
          { resp := some
              { RateLimit := readRespRateLimit fresp
                RawResp := respBytes
                ReverseQuery := { Lon := respRaw.Query.getD 0 ⟨0, 1⟩, Lat := respRaw.Query.getD 1 ⟨0, 1⟩ }
                ForwardQuery := []
                Type' := ""
                Features := respRaw.Features }
            err := none, reqURI := reqURI
            pool := releaseStringsBuilder acq.2 buf, events := [.acquire, .release] }

/-- `FastHttpGeocoder.ForwardGeocode`: build the URI in a pooled buffer,
issue the GET, validate the status, parse the body, and assemble the
response; the echoed query is passed through without validation. -/
def ForwardGeocode (c : FastHttpGeocoder) (pool : List String)
    (req : ForwardGeocodeRequest) (transport : Except String HttpResp)
    (unmarshalForward : String → Except String rawForwardGeoResp) : CallResult :=
  let acq := acquireStringsBuilder pool
  let buf := acq.1 ++ c.geocodeAPIURL
    ++ req.SearchText
    ++ ".json" ++ c.config.accessTokenGetValue
    ++ encodeValues (buildForwardValues req)
  let reqURI := buf
  match transport with
  | .error e =>
    { resp := none, err := some e, reqURI := reqURI
      pool := releaseStringsBuilder acq.2 buf, events := [.acquire, .release] }
  | .ok fresp =>
    let respBytes := fresp.body
    if fresp.statusCode ≠ 200 then
      { resp := none
        err := some ("failed to reverse geocode URI " ++ reqURI ++ " statusCode "
          ++ toString fresp.statusCode ++ " resp " ++ respBytes)
        reqURI := reqURI
        pool := releaseStringsBuilder acq.2 buf, events := [.acquire, .release] }
    else
      match unmarshalForward respBytes with
      | .error perr =>
        { resp := none
          err := some ("failed to unmarshall raw reverse geocode resp " ++ respBytes ++ ": " ++ perr)
          reqURI := reqURI
          pool := releaseStringsBuilder acq.2 buf, events := [.acquire, .release] }
      | .ok respRaw =>
        { resp := some
            { RateLimit := readRespRateLimit fresp
              RawResp := respBytes
              ReverseQuery := { Lon := ⟨0, 1⟩, Lat := ⟨0, 1⟩ }
              ForwardQuery := respRaw.Query
              Type' := ""
              Features := respRaw.Features }
          err := none, reqURI := reqURI
          pool := releaseStringsBuilder acq.2 buf, events := [.acquire, .release] }

/-! ## The earlier reverse-only geocoder (`src/mapbox/geocode.go`,
`src/mapbox/values.go`)

This historical version splits the feature types between a single-value map
(exactly one type) and a multi-value map (more than one), and its encoder
takes both maps. -/

namespace V1

/-- `encodeValues` over the single-value map: `&key=value` per entry. -/
def encodeSingles : List (String × String) → String
  | [] => ""
  | kv :: rest => "&" ++ kv.1 ++ "=" ++ kv.2 ++ encodeSingles rest

/-- The inner loop of `encodeValues` over one multi-value entry:
`&key=value` for every element of the list. -/
def encodeMultiValue (k : String) : List String → String
  | [] => ""
  | v :: rest => "&" ++ k ++ "=" ++ v ++ encodeMultiValue k rest

/-- `encodeValues` over the multi-value map. -/
def encodeMultis : List (String × List String) → String
  | [] => ""
  | kvs :: rest => encodeMultiValue kvs.1 kvs.2 ++ encodeMultis rest

/-- `encodeValues` of `values.go`: the single-value entries, then the
multi-value entries. -/
def encodeValues (values : List (String × String))
    (valuesMulti : List (String × List String)) : String :=
  encodeSingles values ++ encodeMultis valuesMulti

/-- The filter maps of the earlier `ReverseGeocode`: the shared filters,
then the `switch len(req.Types)` split between the two maps. -/
def buildReverseValues (req : ReverseGeocodeRequest) :
    List (String × String) × List (String × List String) :=
  let v := buildFilterValues req
  match req.Types with
  | [] => (v, [])
  | [t] => (upsert v "types" t, [])
  | ts => (v, [("types", ts)])

end V1

/-! ## Helper lemmas -/

theorem empty_string_append (s : String) : "" ++ s = s := by
  cases s
  rfl

theorem mem_upsert_of_ne {l : List (String × String)} {k v q w : String} (h : q ≠ k) :
    (q, w) ∈ upsert l k v ↔ (q, w) ∈ l := by
  induction l with
  | nil => simp [upsert, h]
  | cons kv rest ih =>
    simp only [upsert]
    by_cases hk : kv.1 = k
    · simp [beq_iff_eq, hk, List.mem_cons, Prod.ext_iff, h]
    · simp [beq_iff_eq, hk, List.mem_cons, ih]

theorem self_mem_upsert {l : List (String × String)} {k v : String} :
    (k, v) ∈ upsert l k v := by
  induction l with
  | nil => simp [upsert]
  | cons kv rest ih =>
    simp only [upsert]
    by_cases hk : kv.1 = k
    · simp [beq_iff_eq, hk]
    · simp [beq_iff_eq, hk, List.mem_cons, ih]

theorem exists_mem_upsert_iff {l : List (String × String)} {k v q : String} :
    (∃ w, (q, w) ∈ upsert l k v) ↔ (q = k ∨ ∃ w, (q, w) ∈ l) := by
  by_cases hq : q = k
  · subst hq
    exact iff_of_true ⟨v, self_mem_upsert⟩ (Or.inl rfl)
  · simp only [hq, false_or]
    constructor
    · rintro ⟨w, hw⟩
      exact ⟨w, (mem_upsert_of_ne hq).mp hw⟩
    · rintro ⟨w, hw⟩
      exact ⟨w, (mem_upsert_of_ne hq).mpr hw⟩

theorem exists_mem_ite_upsert {c : Prop} [Decidable c] {l : List (String × String)}
    {k v q : String} :
    (∃ w, (q, w) ∈ (if c then upsert l k v else l)) ↔ ((c ∧ q = k) ∨ ∃ w, (q, w) ∈ l) := by
  split
  · next h => simp [exists_mem_upsert_iff, h]
  · next h => simp [h]

theorem hasKey_iff_exists {l : List (String × String)} {q : String} :
    hasKey l q = true ↔ ∃ w, (q, w) ∈ l := by
  simp only [hasKey, List.any_eq_true, beq_iff_eq]
  constructor
  · rintro ⟨⟨a, b⟩, hm, rfl⟩
    exact ⟨b, hm⟩
  · rintro ⟨w, hw⟩
    exact ⟨(q, w), hw, rfl⟩

theorem upsert_eq_append {l : List (String × String)} {k v : String}
    (h : hasKey l k = false) : upsert l k v = l ++ [(k, v)] := by
  induction l with
  | nil => simp [upsert]
  | cons kv rest ih =>
    simp only [hasKey, List.any_cons, Bool.or_eq_false_iff] at h
    simp [upsert, h.1, ih h.2]

theorem V1.encodeSingles_append (a b : List (String × String)) :
    V1.encodeSingles (a ++ b) = V1.encodeSingles a ++ V1.encodeSingles b := by
  induction a with
  | nil =>
    simp only [List.nil_append, V1.encodeSingles]
    exact (empty_string_append _).symm
  | cons kv rest ih =>
    simp only [List.cons_append, V1.encodeSingles, String.append_assoc]
    rw [show rest.append b = rest ++ b from rfl, ih]

theorem mem_ite_upsert_of_ne {c : Prop} [Decidable c] {l : List (String × String)}
    {k v q w : String} (h : q ≠ k) :
    (q, w) ∈ (if c then upsert l k v else l) ↔ (q, w) ∈ l := by
  split
  · exact mem_upsert_of_ne h
  · exact Iff.rfl

theorem exists_mem_buildFilterValues (req : ReverseGeocodeRequest) (q : String) :
    (∃ w, (q, w) ∈ buildFilterValues req) ↔
      ((q = "country" ∧ req.Country ≠ "") ∨ (q = "limit" ∧ req.Limit ≠ 0) ∨
       (q = "language" ∧ req.Language ≠ "") ∨ (q = "routing" ∧ req.Routing = true) ∨
       (q = "reverseMode" ∧ req.ReverseMode = 1)) := by
  simp only [buildFilterValues, exists_mem_ite_upsert, List.not_mem_nil, exists_false, or_false]
  tauto

theorem exists_mem_buildReverseValues (req : ReverseGeocodeRequest) (q : String) :
    (∃ w, (q, w) ∈ buildReverseValues req) ↔
      ((q = "country" ∧ req.Country ≠ "") ∨ (q = "limit" ∧ req.Limit ≠ 0) ∨
       (q = "language" ∧ req.Language ≠ "") ∨ (q = "routing" ∧ req.Routing = true) ∨
       (q = "reverseMode" ∧ req.ReverseMode = 1) ∨ (q = "types" ∧ 0 < req.Types.length)) := by
  simp only [buildReverseValues, exists_mem_ite_upsert, exists_mem_buildFilterValues]
  tauto

set_option maxHeartbeats 1600000 in
theorem exists_mem_buildForwardValues (req : ForwardGeocodeRequest) (q : String) :
    (∃ w, (q, w) ∈ buildForwardValues req) ↔
      ((q = "country" ∧ req.Country ≠ "") ∨ (q = "limit" ∧ req.Limit ≠ 0) ∨
       (q = "language" ∧ req.Language ≠ "") ∨ q = "autocomplete" ∨ q = "fuzzymatch" ∨
       (q = "bbox" ∧ req.Bbox.length = 4) ∨ (q = "proximity" ∧ req.Proximity.isSome = true) ∨
       q = "routing" ∨ (q = "types" ∧ 0 < req.Types.length)) := by
  rcases hp : req.Proximity with _ | gp <;>
    simp only [buildForwardValues, hp, Option.isSome_none, Option.isSome_some,
      exists_mem_ite_upsert, exists_mem_upsert_iff, List.not_mem_nil, exists_false,
      or_false, and_true, and_false] <;>
    tauto

theorem hasKey_buildFilterValues_types (req : ReverseGeocodeRequest) :
    hasKey (buildFilterValues req) "types" = false := by
  cases h : hasKey (buildFilterValues req) "types" with
  | false => rfl
  | true =>
    exfalso
    have := (exists_mem_buildFilterValues req "types").mp (hasKey_iff_exists.mp h)
    simp at this

theorem string_append_empty (s : String) : s ++ "" = s := by
  cases s with
  | mk data => exact congrArg String.mk (List.append_nil data)

theorem acquire_fst_of_empty {pool : List String} (h : ∀ b ∈ pool, b = "") :
    (acquireStringsBuilder pool).1 = "" := by
  cases pool with
  | nil => rfl
  | cons b rest => exact h b (List.mem_cons_self b rest)

theorem ReverseGeocode_reqURI (c : FastHttpGeocoder) (pool : List String)
    (req : ReverseGeocodeRequest) (tr : Except String HttpResp)
    (um : String → Except String rawReverseGeoResp) :
    (ReverseGeocode c pool req tr um).reqURI
      = (acquireStringsBuilder pool).1 ++ c.geocodeAPIURL
        ++ formatF6 req.GeoPoint.Lon ++ "," ++ formatF6 req.GeoPoint.Lat
        ++ ".json" ++ c.config.accessTokenGetValue
        ++ encodeValues (buildReverseValues req) := by
  cases tr with
  | error e => rfl
  | ok fresp =>
    simp only [ReverseGeocode]
    repeat' split
    all_goals rfl

theorem ForwardGeocode_reqURI (c : FastHttpGeocoder) (pool : List String)
    (req : ForwardGeocodeRequest) (tr : Except String HttpResp)
    (um : String → Except String rawForwardGeoResp) :
    (ForwardGeocode c pool req tr um).reqURI
      = (acquireStringsBuilder pool).1 ++ c.geocodeAPIURL
        ++ req.SearchText ++ ".json" ++ c.config.accessTokenGetValue
        ++ encodeValues (buildForwardValues req) := by
  cases tr with
  | error e => rfl
  | ok fresp =>
    simp only [ForwardGeocode]
    repeat' split
    all_goals rfl

theorem frac6_data (m : ℕ) : (frac6 m).data
    = [Nat.digitChar (m / 100000 % 10), Nat.digitChar (m / 10000 % 10),
       Nat.digitChar (m / 1000 % 10), Nat.digitChar (m / 100 % 10),
       Nat.digitChar (m / 10 % 10), Nat.digitChar (m % 10)] := rfl

theorem isDigit_digitChar_mod (n : ℕ) : (Nat.digitChar (n % 10)).isDigit = true := by
  have h : n % 10 < 10 := Nat.mod_lt _ (by norm_num)
  set k := n % 10 with hk
  interval_cases k <;> rfl

/-! ## Claim theorems -/

/-- C7: on every execution path of `ReverseGeocode` and `ForwardGeocode` —
transport failure, non-200 status, parse failure, malformed echoed query,
and success — the buffer acquired from the pool at the start of the call is
released back to the pool exactly once (the call performs exactly the event
sequence acquire-then-release, and the final pool regains exactly the one
slot taken), and releasing resets the buffer's content to empty. -/
theorem buffer_released_once_on_every_path :
    (∀ (c : FastHttpGeocoder) (pool : List String) (req : ReverseGeocodeRequest)
       (tr : Except String HttpResp) (um : String → Except String rawReverseGeoResp),
       (ReverseGeocode c pool req tr um).pool = "" :: (acquireStringsBuilder pool).2
       ∧ (ReverseGeocode c pool req tr um).events = [PoolEvent.acquire, PoolEvent.release])
    ∧ (∀ (c : FastHttpGeocoder) (pool : List String) (req : ForwardGeocodeRequest)
       (tr : Except String HttpResp) (um : String → Except String rawForwardGeoResp),
       (ForwardGeocode c pool req tr um).pool = "" :: (acquireStringsBuilder pool).2
       ∧ (ForwardGeocode c pool req tr um).events = [PoolEvent.acquire, PoolEvent.release])
    ∧ (∀ (p : List String) (b : String), releaseStringsBuilder p b = "" :: p) := by
  refine ⟨?_, ?_, fun p b => rfl⟩
  · intro c pool req tr um
    cases tr with
    | error e => exact ⟨rfl, rfl⟩
    | ok fresp =>
      refine ⟨?_, ?_⟩ <;>
        · simp only [ReverseGeocode]
          repeat' split
          all_goals rfl
  · intro c pool req tr um
    cases tr with
    | error e => exact ⟨rfl, rfl⟩
    | ok fresp =>
      refine ⟨?_, ?_⟩ <;>
        · simp only [ForwardGeocode]
          repeat' split
          all_goals rfl

/-- C8: a transport error is returned to the caller verbatim, with no
wrapping, and for every call exactly one of the two results is non-nil —
either a response with a nil error, or a nil response with a non-nil
error. -/
theorem transport_error_verbatim_and_exclusive_results :
    (∀ (c : FastHttpGeocoder) (pool : List String) (req : ReverseGeocodeRequest)
       (e : String) (um : String → Except String rawReverseGeoResp),
       (ReverseGeocode c pool req (Except.error e) um).err = some e
       ∧ (ReverseGeocode c pool req (Except.error e) um).resp = none)
    ∧ (∀ (c : FastHttpGeocoder) (pool : List String) (req : ForwardGeocodeRequest)
       (e : String) (um : String → Except String rawForwardGeoResp),
       (ForwardGeocode c pool req (Except.error e) um).err = some e
       ∧ (ForwardGeocode c pool req (Except.error e) um).resp = none)
    ∧ (∀ (c : FastHttpGeocoder) (pool : List String) (req : ReverseGeocodeRequest)
       (tr : Except String HttpResp) (um : String → Except String rawReverseGeoResp),
       ((ReverseGeocode c pool req tr um).resp = none
         ∧ (ReverseGeocode c pool req tr um).err.isSome = true)
       ∨ ((ReverseGeocode c pool req tr um).resp.isSome = true
         ∧ (ReverseGeocode c pool req tr um).err = none))
    ∧ (∀ (c : FastHttpGeocoder) (pool : List String) (req : ForwardGeocodeRequest)
       (tr : Except String HttpResp) (um : String → Except String rawForwardGeoResp),
       ((ForwardGeocode c pool req tr um).resp = none
         ∧ (ForwardGeocode c pool req tr um).err.isSome = true)
       ∨ ((ForwardGeocode c pool req tr um).resp.isSome = true
         ∧ (ForwardGeocode c pool req tr um).err = none)) := by
  refine ⟨fun c pool req e um => ⟨rfl, rfl⟩, fun c pool req e um => ⟨rfl, rfl⟩, ?_, ?_⟩
  · intro c pool req tr um
    cases tr with
    | error e => exact Or.inl ⟨rfl, rfl⟩
    | ok fresp =>
      simp only [ReverseGeocode]
      repeat' split
      all_goals first
        | exact Or.inl ⟨rfl, rfl⟩
        | exact Or.inr ⟨rfl, rfl⟩
  · intro c pool req tr um
    cases tr with
    | error e => exact Or.inl ⟨rfl, rfl⟩
    | ok fresp =>
      simp only [ForwardGeocode]
      repeat' split
      all_goals first
        | exact Or.inl ⟨rfl, rfl⟩
        | exact Or.inr ⟨rfl, rfl⟩

/-- C9: the per-call logger-resolver, when configured, supplies the logger
used for the debug log (resolved from the request context), regardless of
any static logger; otherwise the static logger is used when configured;
when neither is configured the log call is skipped without failing. -/
theorem logger_resolver_precedence :
    (∀ (c : config) (ctx : Ctx) (f : Ctx → Logger),
       c.requestLogger = some f → withLogger c ctx = some (f ctx))
    ∧ (∀ (c : config) (ctx : Ctx),
       c.requestLogger = none → withLogger c ctx = c.logger)
    ∧ (∀ (c : config) (ctx : Ctx),
       c.requestLogger = none → c.logger = none → withLogger c ctx = none) := by
  refine ⟨?_, ?_, ?_⟩
  · intro c ctx f h
    simp [withLogger, h]
  · intro c ctx h
    simp only [withLogger, h]
    cases c.logger <;> rfl
  · intro c ctx h h2
    simp [withLogger, h, h2]

/-- C9 witness: with both a static logger and a resolver configured, the
resolver's logger is the one used. -/
theorem logger_resolver_precedence_witness :
    ({ accessToken := "", rootAPI := "", client := 0, logger := some ⟨5⟩,
        requestLogger := some (fun _ => ⟨7⟩), accessTokenGetValue := "",
        geocodeEndpoint := "" } : config).requestLogger = some (fun _ => (⟨7⟩ : Logger))
    ∧ withLogger { accessToken := "", rootAPI := "", client := 0, logger := some ⟨5⟩,
                   requestLogger := some (fun _ => ⟨7⟩), accessTokenGetValue := "",
                   geocodeEndpoint := "" } 3 = some ⟨7⟩ :=
  ⟨rfl, logger_resolver_precedence.1 _ 3 _ rfl⟩

/-- C10: the `reverseMode` parameter is rendered if and only if the
`ReverseMode` field equals exactly 1 (as `reverseMode=1`); any other value
is silently omitted (e.g. 2 yields no filter entries on an otherwise-zero
request).  A forward `Bbox` whose length is not exactly 4 is silently
omitted: the `bbox` parameter is rendered if and only if the length is 4. -/
theorem reverseMode_and_bbox_render_conditions :
    (∀ req : ReverseGeocodeRequest,
       (∃ w, ("reverseMode", w) ∈ buildReverseValues req) ↔ req.ReverseMode = 1)
    ∧ (∀ req : ReverseGeocodeRequest, req.ReverseMode = 1 →
       ("reverseMode", "1") ∈ buildReverseValues req)
    ∧ (∀ req : ForwardGeocodeRequest,
       (∃ w, ("bbox", w) ∈ buildForwardValues req) ↔ req.Bbox.length = 4)
    ∧ (∀ gp : GeoPoint,
       buildReverseValues { GeoPoint := gp, Limit := 0, Types := [], Country := "",
                            Language := "", ReverseMode := 2, Routing := false } = []) := by
  refine ⟨?_, ?_, ?_, fun gp => rfl⟩
  · intro req
    rw [exists_mem_buildReverseValues]
    simp
  · intro req h
    simp only [buildReverseValues]
    rw [mem_ite_upsert_of_ne (by simp)]
    simp only [buildFilterValues]
    rw [if_pos h]
    exact self_mem_upsert
  · intro req
    rw [exists_mem_buildForwardValues]
    simp

/-- C10 witness: for a request with `ReverseMode = 1` the `reverseMode=1`
parameter is rendered. -/
theorem reverseMode_and_bbox_render_conditions_witness :
    ((1 : ℤ) = 1)
    ∧ ("reverseMode", "1") ∈ buildReverseValues
        { GeoPoint := ⟨⟨1, 2⟩, ⟨3, 4⟩⟩, Limit := 0, Types := [], Country := "",
            Language := "", ReverseMode := 1, Routing := false } :=
  ⟨rfl, reverseMode_and_bbox_render_conditions.2.1 _ rfl⟩

/-- The non-200 error message textually contains the request URI, the
rendered status code and the raw body. -/
theorem non200_msg_decomp (u ts b : String) :
    (∃ p s, "failed to reverse geocode URI " ++ u ++ " statusCode " ++ ts ++ " resp " ++ b
      = p ++ u ++ s)
    ∧ (∃ p s, "failed to reverse geocode URI " ++ u ++ " statusCode " ++ ts ++ " resp " ++ b
      = p ++ ts ++ s)
    ∧ (∃ p s, "failed to reverse geocode URI " ++ u ++ " statusCode " ++ ts ++ " resp " ++ b
      = p ++ b ++ s) :=
  ⟨⟨"failed to reverse geocode URI ", " statusCode " ++ ts ++ " resp " ++ b,
      by simp [String.append_assoc]⟩,
   ⟨"failed to reverse geocode URI " ++ u ++ " statusCode ", " resp " ++ b,
      by simp [String.append_assoc]⟩,
   ⟨"failed to reverse geocode URI " ++ u ++ " statusCode " ++ ts ++ " resp ", "",
      by simp [String.append_assoc, string_append_empty]⟩⟩

/-- C2: when the transport succeeds but the status is not 200, both
operations return no response and an error whose message contains the full
request URI, the numeric status code and the raw body text. -/
theorem non200_status_yields_descriptive_error :
    ∀ (c : FastHttpGeocoder) (pool : List String) (req : ReverseGeocodeRequest)
      (freq : ForwardGeocodeRequest) (fresp : HttpResp)
      (um : String → Except String rawReverseGeoResp)
      (fum : String → Except String rawForwardGeoResp),
      fresp.statusCode ≠ 200 →
      ((ReverseGeocode c pool req (Except.ok fresp) um).resp = none
       ∧ (ReverseGeocode c pool req (Except.ok fresp) um).err
           = some ("failed to reverse geocode URI "
               ++ (ReverseGeocode c pool req (Except.ok fresp) um).reqURI
               ++ " statusCode " ++ toString fresp.statusCode ++ " resp " ++ fresp.body)
       ∧ (∃ p s, (ReverseGeocode c pool req (Except.ok fresp) um).err
           = some (p ++ (ReverseGeocode c pool req (Except.ok fresp) um).reqURI ++ s))
       ∧ (∃ p s, (ReverseGeocode c pool req (Except.ok fresp) um).err
           = some (p ++ toString fresp.statusCode ++ s))
       ∧ (∃ p s, (ReverseGeocode c pool req (Except.ok fresp) um).err
           = some (p ++ fresp.body ++ s)))
      ∧ ((ForwardGeocode c pool freq (Except.ok fresp) fum).resp = none
       ∧ (ForwardGeocode c pool freq (Except.ok fresp) fum).err
           = some ("failed to reverse geocode URI "
               ++ (ForwardGeocode c pool freq (Except.ok fresp) fum).reqURI
               ++ " statusCode " ++ toString fresp.statusCode ++ " resp " ++ fresp.body)
       ∧ (∃ p s, (ForwardGeocode c pool freq (Except.ok fresp) fum).err
           = some (p ++ (ForwardGeocode c pool freq (Except.ok fresp) fum).reqURI ++ s))
       ∧ (∃ p s, (ForwardGeocode c pool freq (Except.ok fresp) fum).err
           = some (p ++ toString fresp.statusCode ++ s))
       ∧ (∃ p s, (ForwardGeocode c pool freq (Except.ok fresp) fum).err
           = some (p ++ fresp.body ++ s))) := by
  intro c pool req freq fresp um fum hst
  have hrv : (ReverseGeocode c pool req (Except.ok fresp) um).resp = none := by
    simp [ReverseGeocode, hst]
  have hre : (ReverseGeocode c pool req (Except.ok fresp) um).err
      = some ("failed to reverse geocode URI "
          ++ (ReverseGeocode c pool req (Except.ok fresp) um).reqURI
          ++ " statusCode " ++ toString fresp.statusCode ++ " resp " ++ fresp.body) := by
    simp [ReverseGeocode, hst]
  have hfv : (ForwardGeocode c pool freq (Except.ok fresp) fum).resp = none := by
    simp [ForwardGeocode, hst]
  have hfe : (ForwardGeocode c pool freq (Except.ok fresp) fum).err
      = some ("failed to reverse geocode URI "
          ++ (ForwardGeocode c pool freq (Except.ok fresp) fum).reqURI
          ++ " statusCode " ++ toString fresp.statusCode ++ " resp " ++ fresp.body) := by
    simp [ForwardGeocode, hst]
  have hd1 := non200_msg_decomp (ReverseGeocode c pool req (Except.ok fresp) um).reqURI
    (toString fresp.statusCode) fresp.body
  have hd2 := non200_msg_decomp (ForwardGeocode c pool freq (Except.ok fresp) fum).reqURI
    (toString fresp.statusCode) fresp.body
  obtain ⟨⟨p1, s1, h1⟩, ⟨p2, s2, h2⟩, ⟨p3, s3, h3⟩⟩ := hd1
  obtain ⟨⟨p4, s4, h4⟩, ⟨p5, s5, h5⟩, ⟨p6, s6, h6⟩⟩ := hd2
  exact ⟨⟨hrv, hre, ⟨p1, s1, by rw [hre, h1]⟩, ⟨p2, s2, by rw [hre, h2]⟩,
          ⟨p3, s3, by rw [hre, h3]⟩⟩,
         ⟨hfv, hfe, ⟨p4, s4, by rw [hfe, h4]⟩, ⟨p5, s5, by rw [hfe, h5]⟩,
          ⟨p6, s6, by rw [hfe, h6]⟩⟩⟩

/-- C2 witness: a 429 response with a body yields the descriptive error. -/
theorem non200_status_yields_descriptive_error_witness :
    ((429 : ℤ) ≠ 200)
    ∧ (ReverseGeocode (NewFastHttpGeocoder "" []) []
        { GeoPoint := ⟨⟨1, 2⟩, ⟨3, 4⟩⟩, Limit := 0, Types := [], Country := "",
            Language := "", ReverseMode := 0, Routing := false }
        (Except.ok { statusCode := 429, body := "rate limited", rlInterval := "",
                     rlLimit := "", rlReset := "" })
        (fun _ => Except.error "unused")).resp = none :=
  ⟨by decide,
   (non200_status_yields_descriptive_error (NewFastHttpGeocoder "" []) [] _
      { SearchText := "", Autocomplete := none, Bbox := [], Country := "",
        FuzzyMatch := none, Language := "", Limit := 0, Proximity := none,
        Routing := false, Types := [] }
      _ _ (fun _ => Except.error "unused") (by decide)).1.1⟩

/-- C3: on a 200 response whose body parses, `ReverseGeocode` fails with an
"unexpected len of query coordinates" error carrying the raw body when the
echoed `query` array does not have exactly 2 elements, and otherwise echoes
`query[0]` as the longitude and `query[1]` as the latitude of the returned
query point; `ForwardGeocode` performs no such validation and passes its
echoed query through unconditionally. -/
theorem reverse_query_length_validation :
    ∀ (c : FastHttpGeocoder) (pool : List String) (req : ReverseGeocodeRequest)
      (freq : ForwardGeocodeRequest) (fresp : HttpResp)
      (um : String → Except String rawReverseGeoResp)
      (fum : String → Except String rawForwardGeoResp)
      (raw : rawReverseGeoResp) (fraw : rawForwardGeoResp),
      fresp.statusCode = 200 →
      um fresp.body = Except.ok raw →
      fum fresp.body = Except.ok fraw →
      ((raw.Query.length ≠ 2 →
        (ReverseGeocode c pool req (Except.ok fresp) um).resp = none
        ∧ (ReverseGeocode c pool req (Except.ok fresp) um).err
            = some ("unexpected len of query coordinates in resp " ++ fresp.body)
        ∧ ∃ p s, (ReverseGeocode c pool req (Except.ok fresp) um).err
            = some (p ++ fresp.body ++ s))
      ∧ (∀ q0 q1 : GoFloat, raw.Query = [q0, q1] →
        (ReverseGeocode c pool req (Except.ok fresp) um).err = none
        ∧ (ReverseGeocode c pool req (Except.ok fresp) um).resp
            = some { RateLimit := readRespRateLimit fresp, RawResp := fresp.body,
                     ReverseQuery := { Lon := q0, Lat := q1 }, ForwardQuery := [],
                     Type' := "", Features := raw.Features })
      ∧ ((ForwardGeocode c pool freq (Except.ok fresp) fum).err = none
        ∧ (ForwardGeocode c pool freq (Except.ok fresp) fum).resp
            = some { RateLimit := readRespRateLimit fresp, RawResp := fresp.body,
                     ReverseQuery := { Lon := ⟨0, 1⟩, Lat := ⟨0, 1⟩ },
                     ForwardQuery := fraw.Query,
                     Type' := "", Features := fraw.Features })) := by
  intro c pool req freq fresp um fum raw fraw hst hum hfum
  refine ⟨?_, ?_, ?_, ?_⟩
  · intro hlen
    have herr : (ReverseGeocode c pool req (Except.ok fresp) um).err
        = some ("unexpected len of query coordinates in resp " ++ fresp.body) := by
      simp [ReverseGeocode, hst, hum, hlen]
    exact ⟨by simp [ReverseGeocode, hst, hum, hlen], herr,
      ⟨"unexpected len of query coordinates in resp ", "",
        by rw [herr, string_append_empty]⟩⟩
  · intro q0 q1 hq
    constructor
    · simp [ReverseGeocode, hst, hum, hq]
    · simp [ReverseGeocode, hst, hum, hq]
  · simp [ForwardGeocode, hst, hfum]
  · simp [ForwardGeocode, hst, hfum]

/-- C3 witness: a 200 response whose echoed `query` has a single element
yields the "unexpected len of query coordinates" error. -/
theorem reverse_query_length_validation_witness :
    ((200 : ℤ) = 200)
    ∧ (ReverseGeocode (NewFastHttpGeocoder "" []) []
        { GeoPoint := ⟨⟨1, 2⟩, ⟨3, 4⟩⟩, Limit := 0, Types := [], Country := "",
            Language := "", ReverseMode := 0, Routing := false }
        (Except.ok { statusCode := 200, body := "query 1.0", rlInterval := "",
                     rlLimit := "", rlReset := "" })
        (fun _ => Except.ok { Features := [], Query := [⟨1, 1⟩] })).err
      = some ("unexpected len of query coordinates in resp " ++ "query 1.0") :=
  ⟨rfl,
   ((reverse_query_length_validation (NewFastHttpGeocoder "" []) [] _
      { SearchText := "", Autocomplete := none, Bbox := [], Country := "",
        FuzzyMatch := none, Language := "", Limit := 0, Proximity := none,
        Routing := false, Types := [] }
      _ _ (fun _ => Except.ok { Features := [], Query := [] }) _
      { Features := [], Query := [] } rfl rfl rfl).1 (by decide)).2.1⟩

/-- C4: for a reverse request whose `Types` list holds exactly one element,
the single-valued encoding (the element placed in the single-value map)
renders exactly the parameter `types=t`, identical to what the multi-valued
encoding of the one-element list would render. -/
theorem single_and_multi_types_encodings_agree :
    ∀ (req : ReverseGeocodeRequest) (t : String), req.Types = [t] →
      (V1.buildReverseValues req).1 = buildFilterValues req ++ [("types", t)]
      ∧ (V1.buildReverseValues req).2 = []
      ∧ V1.encodeValues (V1.buildReverseValues req).1 (V1.buildReverseValues req).2
          = V1.encodeValues (buildFilterValues req) [("types", [t])]
      ∧ V1.encodeValues (V1.buildReverseValues req).1 (V1.buildReverseValues req).2
          = V1.encodeSingles (buildFilterValues req) ++ ("&" ++ "types" ++ "=" ++ t) := by
  intro req t h
  have h1 : V1.buildReverseValues req = (upsert (buildFilterValues req) "types" t, []) := by
    simp [V1.buildReverseValues, h]
  have h2 : upsert (buildFilterValues req) "types" t = buildFilterValues req ++ [("types", t)] :=
    upsert_eq_append (hasKey_buildFilterValues_types req)
  refine ⟨by rw [h1]; exact h2, by rw [h1], ?_, ?_⟩
  · rw [h1, h2]
    simp [V1.encodeValues, V1.encodeSingles_append, V1.encodeMultis, V1.encodeMultiValue,
      V1.encodeSingles, string_append_empty, String.append_assoc]
  · rw [h1, h2]
    simp [V1.encodeValues, V1.encodeSingles_append, V1.encodeMultis, V1.encodeMultiValue,
      V1.encodeSingles, string_append_empty, String.append_assoc]

/-- C4 witness: a request with the single type `poi` renders `&types=poi`
under both encodings. -/
theorem single_and_multi_types_encodings_agree_witness :
    (({ GeoPoint := ⟨⟨1, 2⟩, ⟨3, 4⟩⟩, Limit := 0, Types := ["poi"], Country := "",
        Language := "", ReverseMode := 0, Routing := false } :
        ReverseGeocodeRequest).Types = ["poi"])
    ∧ V1.encodeValues
        (V1.buildReverseValues
          { GeoPoint := ⟨⟨1, 2⟩, ⟨3, 4⟩⟩, Limit := 0, Types := ["poi"], Country := "",
            Language := "", ReverseMode := 0, Routing := false }).1
        (V1.buildReverseValues
          { GeoPoint := ⟨⟨1, 2⟩, ⟨3, 4⟩⟩, Limit := 0, Types := ["poi"], Country := "",
            Language := "", ReverseMode := 0, Routing := false }).2
      = V1.encodeValues
          (buildFilterValues
            { GeoPoint := ⟨⟨1, 2⟩, ⟨3, 4⟩⟩, Limit := 0, Types := ["poi"], Country := "",
              Language := "", ReverseMode := 0, Routing := false })
          [("types", ["poi"])] :=
  ⟨rfl, (single_and_multi_types_encodings_agree _ "poi" rfl).2.2.1⟩

/-- C5: every coordinate written into the query string is rendered through
the fixed 6-decimal formatter: the fractional part is exactly 6 digit
characters, the example longitude `-77.0501629` renders as `-77.050163`,
the reverse URI embeds the formatted longitude and latitude, and the
forward `proximity` and `bbox` values are built from formatted
coordinates. -/
theorem coordinates_render_six_decimals :
    (∀ x : GoFloat,
       formatF6 x = (if x.num < 0 then "-" else "")
           ++ toString ((round6 x).natAbs / 1000000) ++ "." ++ frac6 ((round6 x).natAbs % 1000000)
       ∧ (frac6 ((round6 x).natAbs % 1000000)).length = 6
       ∧ (∀ ch ∈ (frac6 ((round6 x).natAbs % 1000000)).data, ch.isDigit = true))
    ∧ formatF6 ⟨-770501629, 10000000⟩ = "-77.050163"
    ∧ (∀ (c : FastHttpGeocoder) (pool : List String) (req : ReverseGeocodeRequest)
         (tr : Except String HttpResp) (um : String → Except String rawReverseGeoResp),
        (ReverseGeocode c pool req tr um).reqURI
          = (acquireStringsBuilder pool).1 ++ c.geocodeAPIURL ++ formatF6 req.GeoPoint.Lon
            ++ "," ++ formatF6 req.GeoPoint.Lat ++ ".json" ++ c.config.accessTokenGetValue
            ++ encodeValues (buildReverseValues req))
    ∧ (∀ (freq : ForwardGeocodeRequest) (gp : GeoPoint), freq.Proximity = some gp →
        ("proximity", formatF6 gp.Lon ++ "," ++ formatF6 gp.Lat) ∈ buildForwardValues freq)
    ∧ (∀ (freq : ForwardGeocodeRequest) (b0 b1 b2 b3 : GoFloat), freq.Bbox = [b0, b1, b2, b3] →
        ("bbox", formatF6 b0 ++ "," ++ formatF6 b1 ++ "," ++ formatF6 b2 ++ "," ++ formatF6 b3)
          ∈ buildForwardValues freq) := by
  refine ⟨?_, by decide, ReverseGeocode_reqURI, ?_, ?_⟩
  · intro x
    refine ⟨rfl, rfl, ?_⟩
    intro ch hch
    rw [frac6_data] at hch
    simp only [List.mem_cons, List.not_mem_nil, or_false] at hch
    rcases hch with h | h | h | h | h | h <;> (subst h; exact isDigit_digitChar_mod _)
  · intro freq gp hp
    simp only [buildForwardValues, hp]
    rw [mem_ite_upsert_of_ne (by simp), mem_upsert_of_ne (by simp)]
    exact self_mem_upsert
  · intro freq b0 b1 b2 b3 hb
    have hlen : freq.Bbox.length = 4 := by rw [hb]; rfl
    rcases hpx : freq.Proximity with _ | gp
    · simp only [buildForwardValues, hpx]
      rw [mem_ite_upsert_of_ne (by simp), mem_upsert_of_ne (by simp), if_pos hlen]
      simp only [hb, List.getD_cons_zero, List.getD_cons_succ]
      exact self_mem_upsert
    · simp only [buildForwardValues, hpx]
      rw [mem_ite_upsert_of_ne (by simp), mem_upsert_of_ne (by simp),
        mem_upsert_of_ne (by simp), if_pos hlen]
      simp only [hb, List.getD_cons_zero, List.getD_cons_succ]
      exact self_mem_upsert

/-- C5 witness: a forward request with a proximity point renders the
`proximity` parameter from the 6-decimal formatter. -/
theorem coordinates_render_six_decimals_witness :
    (({ SearchText := "", Autocomplete := none, Bbox := [], Country := "",
        FuzzyMatch := none, Language := "", Limit := 0,
        Proximity := some ⟨⟨15, 10⟩, ⟨25, 10⟩⟩, Routing := false, Types := [] } :
        ForwardGeocodeRequest).Proximity = some ⟨⟨15, 10⟩, ⟨25, 10⟩⟩)
    ∧ ("proximity", formatF6 ⟨15, 10⟩ ++ "," ++ formatF6 ⟨25, 10⟩) ∈ buildForwardValues
        { SearchText := "", Autocomplete := none, Bbox := [], Country := "",
          FuzzyMatch := none, Language := "", Limit := 0,
          Proximity := some ⟨⟨15, 10⟩, ⟨25, 10⟩⟩, Routing := false, Types := [] } :=
  ⟨rfl, coordinates_render_six_decimals.2.2.2.1 _ ⟨⟨15, 10⟩, ⟨25, 10⟩⟩ rfl⟩

/-- C6: construction applies the options in caller order to the default
configuration, then replaces the access token with the environment value
exactly when it is non-empty, then precomputes the access-token fragment
`?access_token=<token>` and the geocode base URL
`root + "/geocoding/v5/" + endpoint + "/"`; every subsequent call renders
its URI from these precomputed values. -/
theorem constructor_precomputes_config :
    ∀ (env : String) (opts : List GoOption),
      (NewFastHttpGeocoder env opts).config.accessToken
        = (if env ≠ "" then env else (opts.foldl applyOption newConfig).accessToken)
      ∧ (NewFastHttpGeocoder env opts).config.accessTokenGetValue
        = "?access_token=" ++ (NewFastHttpGeocoder env opts).config.accessToken
      ∧ (NewFastHttpGeocoder env opts).config.rootAPI
        = (opts.foldl applyOption newConfig).rootAPI
      ∧ (NewFastHttpGeocoder env opts).config.geocodeEndpoint
        = (opts.foldl applyOption newConfig).geocodeEndpoint
      ∧ (NewFastHttpGeocoder env opts).geocodeAPIURL
        = (opts.foldl applyOption newConfig).rootAPI ++ "/geocoding/v5/"
          ++ (opts.foldl applyOption newConfig).geocodeEndpoint ++ "/"
      ∧ (∀ (pool : List String) (req : ReverseGeocodeRequest) (tr : Except String HttpResp)
           (um : String → Except String rawReverseGeoResp), (∀ b ∈ pool, b = "") →
          (ReverseGeocode (NewFastHttpGeocoder env opts) pool req tr um).reqURI
            = (NewFastHttpGeocoder env opts).geocodeAPIURL
              ++ formatF6 req.GeoPoint.Lon ++ "," ++ formatF6 req.GeoPoint.Lat ++ ".json"
              ++ (NewFastHttpGeocoder env opts).config.accessTokenGetValue
              ++ encodeValues (buildReverseValues req))
      ∧ (∀ (pool : List String) (freq : ForwardGeocodeRequest) (tr : Except String HttpResp)
           (fum : String → Except String rawForwardGeoResp), (∀ b ∈ pool, b = "") →
          (ForwardGeocode (NewFastHttpGeocoder env opts) pool freq tr fum).reqURI
            = (NewFastHttpGeocoder env opts).geocodeAPIURL
              ++ freq.SearchText ++ ".json"
              ++ (NewFastHttpGeocoder env opts).config.accessTokenGetValue
              ++ encodeValues (buildForwardValues freq)) := by
  intro env opts
  refine ⟨?_, ?_, ?_, ?_, ?_, ?_, ?_⟩
  · simp only [NewFastHttpGeocoder, prepare, withEnv]
    split_ifs with h <;> rfl
  · simp only [NewFastHttpGeocoder, prepare, withEnv]
    split_ifs with h <;>
      · rw [show ("?" ++ "access_token" ++ "=" : String) = "?access_token=" from rfl]
  · simp only [NewFastHttpGeocoder, prepare, withEnv]
    split_ifs with h <;> rfl
  · simp only [NewFastHttpGeocoder, prepare, withEnv]
    split_ifs with h <;> rfl
  · simp only [NewFastHttpGeocoder, prepare, withEnv]
    split_ifs with h <;> rfl
  · intro pool req tr um hpool
    rw [ReverseGeocode_reqURI, acquire_fst_of_empty hpool, empty_string_append]
  · intro pool freq tr fum hpool
    rw [ForwardGeocode_reqURI, acquire_fst_of_empty hpool, empty_string_append]

/-- C6 witness: with an explicit token option overridden by a non-empty
environment value, the precomputed fragment embeds the environment token and
both a reverse and a forward call render their URIs from the precomputed
parts. -/
theorem constructor_precomputes_config_witness :
    (NewFastHttpGeocoder "envtok" [GoOption.AccessToken "opttok"]).config.accessToken
        = "envtok"
    ∧ (∀ b ∈ ([] : List String), b = "")
    ∧ (ReverseGeocode (NewFastHttpGeocoder "envtok" [GoOption.AccessToken "opttok"]) []
        { GeoPoint := ⟨⟨15, 10⟩, ⟨25, 10⟩⟩, Limit := 0, Types := [], Country := "",
            Language := "", ReverseMode := 0, Routing := false }
        (Except.error "network down") (fun _ => Except.error "unused")).reqURI
      = (NewFastHttpGeocoder "envtok" [GoOption.AccessToken "opttok"]).geocodeAPIURL
        ++ formatF6 ⟨15, 10⟩ ++ "," ++ formatF6 ⟨25, 10⟩ ++ ".json"
        ++ (NewFastHttpGeocoder "envtok"
            [GoOption.AccessToken "opttok"]).config.accessTokenGetValue
        ++ encodeValues (buildReverseValues
            { GeoPoint := ⟨⟨15, 10⟩, ⟨25, 10⟩⟩, Limit := 0, Types := [], Country := "",
              Language := "", ReverseMode := 0, Routing := false })
    ∧ (ForwardGeocode (NewFastHttpGeocoder "envtok" [GoOption.AccessToken "opttok"]) []
        { SearchText := "Paris", Autocomplete := none, Bbox := [], Country := "",
            FuzzyMatch := none, Language := "", Limit := 0, Proximity := none,
            Routing := false, Types := [] }
        (Except.error "network down") (fun _ => Except.error "unused")).reqURI
      = (NewFastHttpGeocoder "envtok" [GoOption.AccessToken "opttok"]).geocodeAPIURL
        ++ "Paris" ++ ".json"
        ++ (NewFastHttpGeocoder "envtok"
            [GoOption.AccessToken "opttok"]).config.accessTokenGetValue
        ++ encodeValues (buildForwardValues
            { SearchText := "Paris", Autocomplete := none, Bbox := [], Country := "",
              FuzzyMatch := none, Language := "", Limit := 0, Proximity := none,
              Routing := false, Types := [] }) :=
  ⟨by decide, by simp,
   (constructor_precomputes_config "envtok" [GoOption.AccessToken "opttok"]).2.2.2.2.2.1
     [] _ (Except.error "network down") (fun _ => Except.error "unused") (by simp),
   (constructor_precomputes_config "envtok" [GoOption.AccessToken "opttok"]).2.2.2.2.2.2
     [] _ (Except.error "network down") (fun _ => Except.error "unused") (by simp)⟩

/-- C1 counterexample: for a `ForwardGeocode` request with every optional
field at its zero value, the rendered URI still carries filter parameters
after the access-token fragment (`autocomplete=true`, `fuzzymatch=true`,
`routing=false`), so the claim as stated is false. -/
theorem forwardGeocode_zero_request_has_filter_params :
    buildForwardValues
        { SearchText := "", Autocomplete := none, Bbox := [], Country := "",
          FuzzyMatch := none, Language := "", Limit := 0, Proximity := none,
          Routing := false, Types := [] }
      = [("autocomplete", "true"), ("fuzzymatch", "true"), ("routing", "false")]
    ∧ (ForwardGeocode (NewFastHttpGeocoder "" []) []
        { SearchText := "", Autocomplete := none, Bbox := [], Country := "",
          FuzzyMatch := none, Language := "", Limit := 0, Proximity := none,
          Routing := false, Types := [] }
        (Except.error "network down") (fun _ => Except.error "unused")).reqURI
      = "https://api.mapbox.com/geocoding/v5/mapbox.places/.json?access_token=&autocomplete=true&fuzzymatch=true&routing=false"
    ∧ (ForwardGeocode (NewFastHttpGeocoder "" []) []
        { SearchText := "", Autocomplete := none, Bbox := [], Country := "",
          FuzzyMatch := none, Language := "", Limit := 0, Proximity := none,
          Routing := false, Types := [] }
        (Except.error "network down") (fun _ => Except.error "unused")).reqURI
      ≠ "https://api.mapbox.com/geocoding/v5/mapbox.places/" ++ "" ++ ".json"
        ++ "?access_token=" :=
  ⟨by decide, by decide, by decide⟩

/-- C1 (amended): for `ReverseGeocode` (both the unified and the earlier
version), a request with all optional fields at zero values renders no
filter parameters after the access-token fragment, and in general a filter
parameter appears in the query exactly when the corresponding field differs
from its zero value; for `ForwardGeocode` the same holds for every filter
except `autocomplete`, `fuzzymatch` and `routing`, which are always
rendered (defaulting to `autocomplete=true`, `fuzzymatch=true`,
`routing=false` on a zero-valued request). -/
theorem filter_params_iff_nonzero_fields :
    (∀ gp : GeoPoint,
       buildReverseValues { GeoPoint := gp, Limit := 0, Types := [], Country := "",
                            Language := "", ReverseMode := 0, Routing := false } = [])
    ∧ (∀ gp : GeoPoint,
       V1.buildReverseValues { GeoPoint := gp, Limit := 0, Types := [], Country := "",
                               Language := "", ReverseMode := 0, Routing := false } = ([], []))
    ∧ (∀ (c : FastHttpGeocoder) (pool : List String) (tr : Except String HttpResp)
         (um : String → Except String rawReverseGeoResp) (gp : GeoPoint),
        (∀ b ∈ pool, b = "") →
        (ReverseGeocode c pool
            { GeoPoint := gp, Limit := 0, Types := [], Country := "",
              Language := "", ReverseMode := 0, Routing := false } tr um).reqURI
          = c.geocodeAPIURL ++ formatF6 gp.Lon ++ "," ++ formatF6 gp.Lat ++ ".json"
            ++ c.config.accessTokenGetValue)
    ∧ (∀ (req : ReverseGeocodeRequest) (q : String),
        (∃ w, (q, w) ∈ buildReverseValues req) ↔
          ((q = "country" ∧ req.Country ≠ "") ∨ (q = "limit" ∧ req.Limit ≠ 0) ∨
           (q = "language" ∧ req.Language ≠ "") ∨ (q = "routing" ∧ req.Routing = true) ∨
           (q = "reverseMode" ∧ req.ReverseMode = 1) ∨ (q = "types" ∧ 0 < req.Types.length)))
    ∧ (∀ (req : ForwardGeocodeRequest) (q : String),
        (∃ w, (q, w) ∈ buildForwardValues req) ↔
          ((q = "country" ∧ req.Country ≠ "") ∨ (q = "limit" ∧ req.Limit ≠ 0) ∨
           (q = "language" ∧ req.Language ≠ "") ∨ q = "autocomplete" ∨ q = "fuzzymatch" ∨
           (q = "bbox" ∧ req.Bbox.length = 4) ∨ (q = "proximity" ∧ req.Proximity.isSome = true) ∨
           q = "routing" ∨ (q = "types" ∧ 0 < req.Types.length))) := by
  refine ⟨fun gp => rfl, fun gp => rfl, ?_, exists_mem_buildReverseValues,
    exists_mem_buildForwardValues⟩
  intro c pool tr um gp hpool
  rw [ReverseGeocode_reqURI, acquire_fst_of_empty hpool, empty_string_append]
  rw [show encodeValues (buildReverseValues
      { GeoPoint := gp, Limit := 0, Types := [], Country := "",
        Language := "", ReverseMode := 0, Routing := false }) = "" from rfl]
  rw [string_append_empty]

/-- C1 (amended) witness: a zero-filter reverse request against a freshly
constructed geocoder renders exactly the base URL, the coordinates, the
`.json` suffix and the access-token fragment. -/
theorem filter_params_iff_nonzero_fields_witness :
    (∀ b ∈ ([] : List String), b = "")
    ∧ (ReverseGeocode (NewFastHttpGeocoder "" []) []
        { GeoPoint := ⟨⟨15, 10⟩, ⟨25, 10⟩⟩, Limit := 0, Types := [], Country := "",
            Language := "", ReverseMode := 0, Routing := false }
        (Except.error "network down") (fun _ => Except.error "unused")).reqURI
      = (NewFastHttpGeocoder "" []).geocodeAPIURL ++ formatF6 ⟨15, 10⟩ ++ ","
        ++ formatF6 ⟨25, 10⟩ ++ ".json"
        ++ (NewFastHttpGeocoder "" []).config.accessTokenGetValue :=
  ⟨by simp,
   filter_params_iff_nonzero_fields.2.2.1 (NewFastHttpGeocoder "" []) []
     (Except.error "network down") (fun _ => Except.error "unused")
     ⟨⟨15, 10⟩, ⟨25, 10⟩⟩ (by simp)⟩

end Mapbox
